import Mathlib

/-!
Shallow embedding of the hex-strategy-game core: the building production
simulator (`buildingProduction.js`, `buildingTypes.js`) and the procedural
terrain generator (seeded Perlin noise with percentile-calibrated
thresholds).  JavaScript numbers are modelled as exact rationals, with an
explicit `nan` constructor where the source can produce `NaN`
(`undefined - x`); a statement `x < undefined` is `false` in JavaScript and
is modelled by `jsLtOpt`.  A JavaScript `TypeError` (property access on
`undefined`) aborts the enclosing call; it is modelled by threading an
`Option JsError` alongside the mutated state, since in-place mutations that
happened before the throw persist.
-/

attribute [local semireducible] Rat.add Rat.sub Rat.mul Rat.inv Rat.ofScientific

namespace Hex

/-- A JavaScript number: either an ordinary (here: exact rational) value or
`NaN`, which arises in the source from `undefined - x`. -/
inductive JSNum where
  | nan : JSNum
  | num : ℚ → JSNum
deriving DecidableEq, Repr

/-- JavaScript truthiness of a number: `undefined`, `0` and `NaN` are falsy.
(`undefined` is handled by the `Option` at use sites.) -/
def JSNum.truthy : JSNum → Bool
  | .nan => false
  | .num q => q != 0

/-- `available < amount` on a JavaScript number: comparisons with `NaN` are
always false. -/
def JSNum.ltq : JSNum → ℚ → Bool
  | .nan, _ => false
  | .num q, a => decide (q < a)

/-- A JavaScript thrown error; the only kind the embedded code can raise is
a `TypeError` from a property access on `undefined`. -/
inductive JsError where
  | typeError : JsError
deriving DecidableEq, Repr

/-- A JavaScript object used as a resource map: key-value pairs in
insertion order. -/
abbrev ResMap := List (String × JSNum)

/-- `m[k] = v`: overwrite an existing key in place, otherwise append, as a
JavaScript object assignment does. -/
def setKey (m : ResMap) (k : String) (v : JSNum) : ResMap :=
  match m with
  | [] => [(k, v)]
  | (k', v') :: rest => if k' = k then (k, v) :: rest else (k', v') :: setKey rest k v

/-- The JavaScript read pattern `m[k] || 0` (and the
`if (!m[k]) m[k] = 0` initialisation): missing keys, `0` and `NaN` all
coerce to `0`; any other number passes through. -/
def jsFalsyToZero : Option JSNum → ℚ
  | some (.num q) => q
  | some .nan => 0
  | none => 0

/-- A building's inventory object.  The source stores plain resource
quantities directly on the object (via `addResourceToBuilding` and
`checkProductionRequirements`) and *also* addresses `inputs` / `outputs`
sub-objects (in `completeProductionCycle`) that no code path initialises;
the sub-objects are therefore `Option`s, `none` meaning `undefined`. -/
structure Inventory where
  flat : ResMap
  inputs : Option ResMap
  outputs : Option ResMap
deriving DecidableEq, Repr

/-- An input requirement `{ type, amount }` of a building type. -/
structure Requirement where
  type : String
  amount : ℚ
deriving DecidableEq, Repr

/-- An output recipe `{ type, amount }` of a building type. -/
structure Produce where
  type : String
  amount : ℚ
deriving DecidableEq, Repr

/-- A static catalog entry from `buildingTypes.js`. -/
structure BuildingType where
  id : String
  name : String
  emoji : String
  allowedTerrain : List String
  produces : Option Produce
  consumes : List Requirement
  productionSpeed : ℚ
  unlocked : Bool
  isHub : Bool
deriving DecidableEq, Repr

/-- A placed building instance. -/
structure Building where
  col : ℤ
  row : ℤ
  type : String
  inventory : Option Inventory
  productionProgress : Option ℚ
deriving DecidableEq, Repr

/-- The game state: `placed_buildings`, an object keyed by tile, iterated
in insertion order by the tick's `for ... in` loop. -/
structure GameState where
  placed_buildings : List (String × Building)
deriving DecidableEq, Repr

/-- The `BUILDING_TYPES` catalog of `buildingTypes.js`, in declaration
order (`Object.values`). -/
def BUILDING_TYPES : List BuildingType :=
  [ { id := "farm", name := "Farm", emoji := "🌾", allowedTerrain := ["GRASS"],
      produces := some ⟨"food", 1⟩, consumes := [], productionSpeed := 0.003,
      unlocked := true, isHub := false },
    { id := "lumberyard", name := "Lumberyard", emoji := "🪵", allowedTerrain := ["FOREST"],
      produces := some ⟨"wood", 1⟩, consumes := [], productionSpeed := 0.005,
      unlocked := true, isHub := false },
    { id := "mine", name := "Mine", emoji := "⛏️", allowedTerrain := ["MOUNTAIN"],
      produces := some ⟨"ore", 1⟩, consumes := [], productionSpeed := 0.0025,
      unlocked := false, isHub := false },
    { id := "quarry", name := "Quarry", emoji := "🪨", allowedTerrain := ["MOUNTAIN"],
      produces := some ⟨"stone", 1⟩, consumes := [], productionSpeed := 0.003,
      unlocked := false, isHub := false },
    { id := "sawmill", name := "Sawmill", emoji := "🏭", allowedTerrain := ["GRASS", "SAND", "FOREST"],
      produces := some ⟨"planks", 1⟩, consumes := [⟨"wood", 2⟩], productionSpeed := 0.002,
      unlocked := false, isHub := false },
    { id := "smelter", name := "Smelter", emoji := "🔥", allowedTerrain := ["GRASS", "SAND", "MOUNTAIN"],
      produces := some ⟨"metal", 1⟩, consumes := [⟨"ore", 2⟩], productionSpeed := 0.0015,
      unlocked := false, isHub := false },
    { id := "hub", name := "Hub", emoji := "🏛️", allowedTerrain := ["GRASS"],
      produces := none, consumes := [], productionSpeed := 0,
      unlocked := true, isHub := true } ]

/-- `getBuildingType`: linear scan of `Object.values(BUILDING_TYPES)` for a
matching `id`; `undefined` (here `none`) when absent. -/
def getBuildingType (types : List BuildingType) (id : String) : Option BuildingType :=
  types.find? fun t => t.id == id

/-- `checkProductionRequirements`: a building with an empty requirement
list can always produce; otherwise every requirement must have
`(inventory[type] || 0) >= amount`.  Reads the *flat* inventory. -/
def checkProductionRequirements (inv : Inventory) (bt : BuildingType) : Bool :=
  bt.consumes.all fun r => !(JSNum.num (jsFalsyToZero (inv.flat.lookup r.type))).ltq r.amount

/-- One consumption step of `completeProductionCycle`:
`inputs[r.type] -= r.amount` (a missing key or `NaN` yields `NaN`) followed
by the clamp `if (inputs[r.type] < 0) inputs[r.type] = 0` (comparisons with
`NaN` are false, so `NaN` is kept). -/
def consumeOne (inp : ResMap) (r : Requirement) : ResMap :=
  let v : JSNum :=
    match inp.lookup r.type with
    | some (.num q) => .num (q - r.amount)
    | some .nan => .nan
    | none => .nan
  let v' : JSNum :=
    match v with
    | .num q => if q < 0 then .num 0 else .num q
    | .nan => .nan
  setKey inp r.type v'

/-- `completeProductionCycle`: consume every requirement from the
`inventory.inputs` sub-object, then add the produced amount to the
`inventory.outputs` sub-object.  Accessing a sub-object that is `undefined`
throws a `TypeError`; mutations made before the throw persist. -/
def completeProductionCycle (inv : Inventory) (bt : BuildingType) :
    Inventory × Option JsError :=
  match bt.consumes with
  | [] =>
    match bt.produces with
    | none => (inv, none)
    | some p =>
      match inv.outputs with
      | none => (inv, some .typeError)
      | some out =>
        let base := jsFalsyToZero (out.lookup p.type)
        ({ inv with outputs := some (setKey out p.type (.num (base + p.amount))) }, none)
  | _ :: _ =>
    match inv.inputs with
    | none => (inv, some .typeError)
    | some inp =>
      let inp' := bt.consumes.foldl consumeOne inp
      let inv' : Inventory := { inv with inputs := some inp' }
      match bt.produces with
      | none => (inv', none)
      | some p =>
        match inv'.outputs with
        | none => (inv', some .typeError)
        | some out =>
          let base := jsFalsyToZero (out.lookup p.type)
          ({ inv' with outputs := some (setKey out p.type (.num (base + p.amount))) }, none)

/-- The body of the `updateBuildings` loop for one building: skip unknown
types and zero-speed types before touching the instance; otherwise
initialise `inventory` / `productionProgress` when missing, check
requirements, accrue `productionSpeed`, and on crossing `1.0` run the
completion cycle and reset progress — unless the completion throws, in
which case the incremented progress is left in place. -/
def processBuilding (types : List BuildingType) (b : Building) :
    Building × Option JsError :=
  match getBuildingType types b.type with
  | none => (b, none)
  | some bt =>
    if bt.productionSpeed = 0 then (b, none)
    else
      let inv := match b.inventory with
        | none => ({ flat := [], inputs := none, outputs := none } : Inventory)
        | some i => i
      let progress : ℚ := match b.productionProgress with
        | none => 0
        | some p => p
      let b' : Building := { b with inventory := some inv, productionProgress := some progress }
      if checkProductionRequirements inv bt then
        let progress' := progress + bt.productionSpeed
        if 1 ≤ progress' then
          match completeProductionCycle inv bt with
          | (inv', some e) =>
            ({ b' with inventory := some inv', productionProgress := some progress' }, some e)
          | (inv', none) =>
            ({ b' with inventory := some inv', productionProgress := some 0 }, none)
        else ({ b' with productionProgress := some progress' }, none)
      else (b', none)

/-- The `for ... in` pass of `updateBuildings`: process each building in
order; an uncaught exception aborts the pass, leaving the remaining
buildings untouched. -/
def runBuildings (types : List BuildingType) :
    List (String × Building) → List (String × Building) × Option JsError
  | [] => ([], none)
  | (k, b) :: rest =>
    match processBuilding types b with
    | (b', some e) => ((k, b') :: rest, some e)
    | (b', none) =>
      let (rest', e) := runBuildings types rest
      ((k, b') :: rest', e)

/-- `updateBuildings(gameState, deltaTime)`: one tick over all placed
buildings.  The `deltaTime` parameter is accepted but never read by the
source body. -/
def updateBuildings (types : List BuildingType) (s : GameState) (deltaTime : ℚ) :
    GameState × Option JsError :=
  let (bs, e) := runBuildings types s.placed_buildings
  ({ placed_buildings := bs }, e)

/-- `n` consecutive production-loop invocations of `updateBuildings` (the
`setInterval` driver keeps calling even after a tick threw). -/
def tickN (types : List BuildingType) (d : ℚ) : ℕ → GameState → GameState
  | 0, s => s
  | n + 1, s => tickN types d n (updateBuildings types s d).1

/-- `addResourceToBuilding`: initialise the inventory object when missing,
coerce a falsy current value to `0`, then add `amount` — all on the flat
inventory, never on the `inputs` sub-object. -/
def addResourceToBuilding (b : Building) (resourceType : String) (amount : ℚ) : Building :=
  let inv := match b.inventory with
    | none => ({ flat := [], inputs := none, outputs := none } : Inventory)
    | some i => i
  let base := jsFalsyToZero (inv.flat.lookup resourceType)
  let inv' : Inventory := { inv with flat := setKey inv.flat resourceType (.num (base + amount)) }
  { b with inventory := some inv' }

/-- One step of the seeded linear-congruential generator
`state = (state * 1664525 + 1013904223) % 4294967296`; every intermediate
value stays below `2^53`, so JavaScript computes it exactly. -/
def seededRandomStep (state : ℕ) : ℕ :=
  (state * 1664525 + 1013904223) % 4294967296

/-- The value returned by one `rng()` call after the step:
`state / 4294967296`, an exactly representable dyadic in `[0, 1)`. -/
def rngValue (state : ℕ) : ℚ :=
  (state : ℚ) / 4294967296

/-- The Fisher–Yates loop of `generatePermutationTable`, from index `i`
down to `1`: `j = Math.floor(rng() * (i + 1))`, then swap `p[i]` and
`p[j]`. -/
def fisherYatesGo (p : Array ℕ) (state : ℕ) : ℕ → Array ℕ
  | 0 => p
  | m + 1 =>
    let i := m + 1
    let state' := seededRandomStep state
    let j : ℕ := (⌊rngValue state' * ((i : ℚ) + 1)⌋).toNat
    let pi := p.getD i 0
    let pj := p.getD j 0
    let p' := (p.setD i pj).setD j pi
    fisherYatesGo p' state' m

/-- `generatePermutationTable`: `[0, …, 255]` shuffled by the seeded
Fisher–Yates loop, then duplicated for easy wrapping. -/
def generatePermutationTable (seed : ℕ) : List ℕ :=
  let p := fisherYatesGo (Array.range 256) seed 255
  p.toList ++ p.toList

/-- Quintic fade `t*t*t*(t*(t*6-15)+10)`. -/
def fade (t : ℚ) : ℚ :=
  t * t * t * (t * (t * 6 - 15) + 10)

/-- Linear interpolation `a + t*(b-a)`. -/
def lerp (t a b : ℚ) : ℚ :=
  a + t * (b - a)

/-- Gradient selection: `h = hash & 7`, pick `±x ± y` accordingly. -/
def grad (hash : ℕ) (x y : ℚ) : ℚ :=
  let h := hash &&& 7
  let u := if h < 4 then x else y
  let v := if h < 4 then y else x
  (if h &&& 1 == 0 then u else -u) + (if h &&& 2 == 0 then v else -v)

/-- `Math.floor(x) & 255`: ToInt32 followed by the 8-bit mask agrees with
the mathematical residue of `⌊x⌋` modulo 256. -/
def jsFloorAnd255 (x : ℚ) : ℕ :=
  ((⌊x⌋ : ℤ) % 256).toNat

/-- `perlin2D`: hash the surrounding lattice corners through the
permutation table and blend the four corner gradients with the quintic
fade.  Out-of-range table reads (impossible for a 512-entry table) default
to `0`. -/
def perlin2D (perm : List ℕ) (x y : ℚ) : ℚ :=
  let X := jsFloorAnd255 x
  let Y := jsFloorAnd255 y
  let xf := x - ⌊x⌋
  let yf := y - ⌊y⌋
  let u := fade xf
  let v := fade yf
  let a := perm.getD X 0 + Y
  let aa := perm.getD a 0
  let ab := perm.getD (a + 1) 0
  let b := perm.getD (X + 1) 0 + Y
  let ba := perm.getD b 0
  let bb := perm.getD (b + 1) 0
  lerp v
    (lerp u (grad (perm.getD aa 0) xf yf) (grad (perm.getD ba 0) (xf - 1) yf))
    (lerp u (grad (perm.getD ab 0) xf (yf - 1)) (grad (perm.getD bb 0) (xf - 1) (yf - 1)))

/-- The octave accumulation loop of `multiOctaveNoise`, threading
`(value, amplitude, frequency, maxValue)`. -/
def multiOctaveGo (perm : List ℕ) (x y : ℚ) :
    ℕ → ℚ → ℚ → ℚ → ℚ → ℚ × ℚ
  | 0, value, _, _, maxValue => (value, maxValue)
  | n + 1, value, amplitude, frequency, maxValue =>
    multiOctaveGo perm x y n
      (value + perlin2D perm (x * frequency) (y * frequency) * amplitude)
      (amplitude * 0.5) (frequency * 2) (maxValue + amplitude)

/-- `multiOctaveNoise`: amplitude-normalised octave sum, stretched by
`/ 0.7` and clamped into `[-1, 1]`. -/
def multiOctaveNoise (perm : List ℕ) (x y : ℚ) (octaves : ℕ) : ℚ :=
  let (value, maxValue) := multiOctaveGo perm x y octaves 0 1 1 0
  let normalized := value / maxValue
  max (-1) (min 1 (normalized / 0.7))

/-- The terrain configuration: seed, scale, octaves and the five target
percentages. -/
structure TerrainConfig where
  seed : ℕ
  scale : ℚ
  octaves : ℕ
  waterPercent : ℚ
  sandPercent : ℚ
  grassPercent : ℚ
  forestPercent : ℚ
  mountainPercent : ℚ
deriving DecidableEq, Repr

/-- The module's default `config` object. -/
def defaultConfig : TerrainConfig :=
  ⟨12345, 0.08, 4, 32.5, 25, 10, 10, 22.5⟩

/-- The sampling loop of `sampleNoiseDistribution`: each iteration draws
`x` and `y` from the seeded generator (two `rng()` calls), scales them, and
records one multi-octave noise value, in order. -/
def sampleGo (perm : List ℕ) (scale : ℚ) (octaves : ℕ) : ℕ → ℕ → List ℚ
  | _, 0 => []
  | state, n + 1 =>
    let s1 := seededRandomStep state
    let x := rngValue s1 * 100
    let s2 := seededRandomStep s1
    let y := rngValue s2 * 100
    multiOctaveNoise perm (x * scale) (y * scale) octaves :: sampleGo perm scale octaves s2 n

/-- `sampleNoiseDistribution`: 10000 seeded noise samples, sorted
ascending (`sort((a, b) => a - b)`). -/
def sampleNoiseDistribution (perm : List ℕ) (cfg : TerrainConfig) : List ℚ :=
  (sampleGo perm cfg.scale cfg.octaves cfg.seed 10000).mergeSort fun a b => decide (a ≤ b)

/-- A JavaScript array read `l[i]`: `undefined` (`none`) outside
`[0, length)`. -/
def jsIndex (l : List ℚ) (i : ℤ) : Option ℚ :=
  if h : 0 ≤ i ∧ i.toNat < l.length then some (l.get ⟨i.toNat, h.2⟩) else none

/-- The four calibrated threshold fields written onto `config` by
`calculateThresholdsFromPercentages`; each is `undefined` (`none`) when its
percentile index falls outside the sample array. -/
structure Thresholds where
  sandThreshold : Option ℚ
  grassThreshold : Option ℚ
  forestThreshold : Option ℚ
  mountainThreshold : Option ℚ
deriving DecidableEq, Repr

/-- `calculateThresholdsFromPercentages`: cumulative percentage cut points
over the sorted sample distribution. -/
def calculateThresholdsFromPercentages (perm : List ℕ) (cfg : TerrainConfig) : Thresholds :=
  let noiseValues := sampleNoiseDistribution perm cfg
  let total : ℚ := (noiseValues.length : ℚ)
  let waterEnd := cfg.waterPercent / 100
  let sandEnd := waterEnd + cfg.sandPercent / 100
  let grassEnd := sandEnd + cfg.grassPercent / 100
  let forestEnd := grassEnd + cfg.forestPercent / 100
  { sandThreshold := jsIndex noiseValues ⌊waterEnd * total⌋
    grassThreshold := jsIndex noiseValues ⌊sandEnd * total⌋
    forestThreshold := jsIndex noiseValues ⌊grassEnd * total⌋
    mountainThreshold := jsIndex noiseValues ⌊forestEnd * total⌋ }

/-- The terrain module's calibrated state: the configuration, the
permutation table and the thresholds written onto the config object. -/
structure TerrainState where
  config : TerrainConfig
  permutation : List ℕ
  thresholds : Thresholds
deriving DecidableEq, Repr

/-- `initPermutation` (run at module load and on seed change): rebuild the
permutation table from the seed, then recalibrate the thresholds. -/
def initTerrainState (cfg : TerrainConfig) : TerrainState :=
  let perm := generatePermutationTable cfg.seed
  { config := cfg, permutation := perm,
    thresholds := calculateThresholdsFromPercentages perm cfg }

/-- The `TERRAIN` object handed to `generateTerrain`: five kind values. -/
structure TerrainTable (α : Type) where
  WATER : α
  SAND : α
  GRASS : α
  FOREST : α
  MOUNTAIN : α

/-- JavaScript `v < t` where `t` may be `undefined`: comparison with
`undefined` is always false. -/
def jsLtOpt (v : ℚ) : Option ℚ → Bool
  | none => false
  | some t => decide (v < t)

/-- The noise value `generateTerrain` computes for a coordinate. -/
def noiseAt (st : TerrainState) (col row : ℤ) : ℚ :=
  multiOctaveNoise st.permutation ((col : ℚ) * st.config.scale)
    ((row : ℚ) * st.config.scale) st.config.octaves

/-- `generateTerrain(col, row, TERRAIN)`: classify the noise value by the
four calibrated thresholds in ascending order. -/
def generateTerrain {α : Type} (T : TerrainTable α) (st : TerrainState) (col row : ℤ) : α :=
  let noiseValue := noiseAt st col row
  if jsLtOpt noiseValue st.thresholds.sandThreshold then T.WATER
  else if jsLtOpt noiseValue st.thresholds.grassThreshold then T.SAND
  else if jsLtOpt noiseValue st.thresholds.forestThreshold then T.GRASS
  else if jsLtOpt noiseValue st.thresholds.mountainThreshold then T.FOREST
  else T.MOUNTAIN

/-- The five terrain kinds. -/
inductive TerrainKind where
  | WATER | SAND | GRASS | FOREST | MOUNTAIN
deriving DecidableEq, Repr

/-- The canonical `TERRAIN` enumeration table. -/
def TERRAIN : TerrainTable TerrainKind :=
  ⟨.WATER, .SAND, .GRASS, .FOREST, .MOUNTAIN⟩

/-- The default `deltaTime` the render loop passes (16.67 ms). -/
def d0 : ℚ := 16.67

/-- A SAWMILL that was handed 1 wood through `addResourceToBuilding` and
stands at production progress `0.9`. -/
def sawmillOneWood : Building :=
  { addResourceToBuilding ⟨0, 0, "sawmill", none, none⟩ "wood" 1 with
    productionProgress := some 0.9 }

/-- Game state holding only the one-wood SAWMILL. -/
def sawmillStarved : GameState := ⟨[("0,0", sawmillOneWood)]⟩

/-- The same state after a second wood unit is deposited via
`addResourceToBuilding`. -/
def sawmillFed : GameState := ⟨[("0,0", addResourceToBuilding sawmillOneWood "wood" 1)]⟩

/-- A catalog entry with production speed `0.5`, no inputs, producing one
food per cycle. -/
def halfSpeedFarm : BuildingType :=
  ⟨"halffarm", "Half Farm", "", ["GRASS"], some ⟨"food", 1⟩, [], 0.5, true, false⟩

/-- A freshly placed `halffarm` with no inventory and no progress. -/
def freshHalfFarm : GameState := ⟨[("0,0", ⟨0, 0, "halffarm", none, none⟩)]⟩

/-- A SAWMILL with 2 wood in the flat inventory and progress `0.998`, so
that the next tick crosses `1.0`. -/
def sawmillReady : Building :=
  ⟨0, 0, "sawmill", some ⟨[("wood", .num 2)], none, none⟩, some 0.998⟩

/-- A freshly placed FARM with no inventory and no progress. -/
def freshFarm : Building := ⟨1, 1, "farm", none, none⟩

/-- A state iterating the about-to-complete SAWMILL before a fresh FARM. -/
def twoBuildingState : GameState := ⟨[("a", sawmillReady), ("b", freshFarm)]⟩

/-- A state holding only the about-to-complete SAWMILL. -/
def sawmillAlmostDone : GameState := ⟨[("0,0", sawmillReady)]⟩

/-- A terrain state whose thresholds are all `undefined`. -/
def uncalibratedState : TerrainState :=
  ⟨defaultConfig, [], ⟨none, none, none, none⟩⟩

/-- A building the tick skips: its `typeId` has no catalog entry, or its
type's `productionSpeed` is `0`. -/
def inertFor (types : List BuildingType) (b : Building) : Prop :=
  getBuildingType types b.type = none ∨
    ∃ t, getBuildingType types b.type = some t ∧ t.productionSpeed = 0

/-- A placed hub: its catalog entry has `productionSpeed` 0. -/
def hubBuilding : Building := ⟨0, 0, "hub", none, none⟩

/-- A state iterating the inert hub before a fresh FARM. -/
def hubFarmState : GameState := ⟨[("0,0", hubBuilding), ("1,1", freshFarm)]⟩

/-- A stored quantity is "not negative": `NaN` is not a negative number,
and a numeric value must be `≥ 0`. -/
def JSNum.notNeg : JSNum → Bool
  | .nan => true
  | .num q => decide (0 ≤ q)

/-- Every value of a resource map is not negative. -/
def resMapNonneg (m : ResMap) : Bool :=
  m.all fun kv => kv.2.notNeg

/-- Every stored quantity of an inventory — flat values and the values of
the `inputs` / `outputs` sub-objects when present — is not negative. -/
def invNonneg (inv : Inventory) : Bool :=
  resMapNonneg inv.flat
    && (match inv.inputs with | none => true | some m => resMapNonneg m)
    && (match inv.outputs with | none => true | some m => resMapNonneg m)

/-- A building's inventory, when present, has no negative quantity. -/
def buildingNonneg (b : Building) : Bool :=
  match b.inventory with
  | none => true
  | some inv => invNonneg inv

/-- No building of the state stores a negative quantity. -/
def stateNonneg (s : GameState) : Bool :=
  s.placed_buildings.all fun kb => buildingNonneg kb.2

/-- Every output recipe of the catalog has a non-negative amount (true of
the shipped catalog, whose amounts are all 1). -/
def producesNonneg (types : List BuildingType) : Bool :=
  types.all fun t =>
    match t.produces with
    | none => true
    | some p => decide (0 ≤ p.amount)

/-- A SAWMILL with 5 flat wood, a present `inputs` bucket holding only 1
wood (less than the 2 a cycle consumes) and a present `outputs` bucket,
one tick away from completing. -/
def sawmillClampState : GameState :=
  ⟨[("0,0", ⟨0, 0, "sawmill",
      some ⟨[("wood", .num 5)], some [("wood", .num 1)], some []⟩, some 0.999⟩)]⟩

/-- A valid percentage configuration (non-negative, summing to 100) whose
`grassPercent` is 0, so two cumulative cut points coincide. -/
def cfg9 : TerrainConfig := ⟨12345, 0.08, 4, 25, 25, 0, 25, 25⟩

/-- An all-20 percentage configuration used as a concrete witness. -/
def cfgW : TerrainConfig := ⟨12345, 0.08, 4, 20, 20, 20, 20, 20⟩

end Hex

set_option maxRecDepth 40000 in
/-- Claim C1: a SAWMILL holding 1 wood at progress 0.9 is starved — a tick
completes nothing and keeps progress 0.9 (this half holds).  But after a
second wood unit is deposited via `addResourceToBuilding`, the next tick
does not complete the cycle: it merely advances progress to 0.902 (SAWMILL
speed is 0.002) with the 2 wood untouched and no plank; and the tick on
which progress does reach 1.0 (the 50th) throws a TypeError on the
never-initialised `inventory.inputs` sub-object, so the wood is never
consumed to 0 and no plank is ever added. -/
theorem Hex.sawmill_starvation_then_cycle_failure :
    Hex.updateBuildings Hex.BUILDING_TYPES Hex.sawmillStarved Hex.d0 = (Hex.sawmillStarved, none)
    ∧ Hex.updateBuildings Hex.BUILDING_TYPES Hex.sawmillFed Hex.d0 =
        (⟨[("0,0", ⟨0, 0, "sawmill", some ⟨[("wood", .num 2)], none, none⟩, some 0.902⟩)]⟩, none)
    ∧ Hex.updateBuildings Hex.BUILDING_TYPES
        (Hex.tickN Hex.BUILDING_TYPES Hex.d0 49 Hex.sawmillFed) Hex.d0 =
        (⟨[("0,0", ⟨0, 0, "sawmill", some ⟨[("wood", .num 2)], none, none⟩, some 1⟩)]⟩,
         some .typeError) := by
  decide

/-- Claim C2: a fresh building of a type with production speed 0.5 and no
inputs gains progress 0.5 on the first tick, but the second tick — where
the claim expects the cycle to complete, one output unit to be added and
progress to reset to 0 — instead throws a TypeError reading the
never-initialised `inventory.outputs` sub-object: no output is added and
progress is left at 1.0. -/
theorem Hex.production_completion_output_failure :
    Hex.updateBuildings [Hex.halfSpeedFarm] Hex.freshHalfFarm Hex.d0 =
      (⟨[("0,0", ⟨0, 0, "halffarm", some ⟨[], none, none⟩, some 0.5⟩)]⟩, none)
    ∧ Hex.updateBuildings [Hex.halfSpeedFarm]
        (Hex.updateBuildings [Hex.halfSpeedFarm] Hex.freshHalfFarm Hex.d0).1 Hex.d0 =
      (⟨[("0,0", ⟨0, 0, "halffarm", some ⟨[], none, none⟩, some 1⟩)]⟩, some .typeError) := by
  decide

/-- Claim C3: `updateBuildings` does not isolate per-building failures: a
SAWMILL whose completion throws (uninitialised `inventory.inputs`) aborts
the pass, leaving the FARM iterated after it completely untouched — even
though processing that FARM alone would have initialised it and accrued
progress. -/
theorem Hex.tick_exception_aborts_remaining :
    Hex.updateBuildings Hex.BUILDING_TYPES Hex.twoBuildingState Hex.d0 =
      (⟨[("a", ⟨0, 0, "sawmill", some ⟨[("wood", .num 2)], none, none⟩, some 1⟩),
         ("b", Hex.freshFarm)]⟩, some .typeError)
    ∧ Hex.processBuilding Hex.BUILDING_TYPES Hex.freshFarm =
        (⟨1, 1, "farm", some ⟨[], none, none⟩, some 0.003⟩, none) := by
  decide

/-- Claim C4: the `productionProgress ∈ [0, 1)` invariant is broken by the
same defect: when the accumulator crosses 1.0 and the completion cycle
throws, the reset on line 38 is never reached, so the tick ends with the
building's progress equal to 1.0 — at and above the upper bound. -/
theorem Hex.progress_exceeds_one_on_failed_completion :
    (Hex.updateBuildings Hex.BUILDING_TYPES Hex.sawmillAlmostDone Hex.d0).2 =
      some Hex.JsError.typeError
    ∧ ((Hex.updateBuildings Hex.BUILDING_TYPES Hex.sawmillAlmostDone
          Hex.d0).1.placed_buildings.lookup "0,0").map Hex.Building.productionProgress =
        some (some 1) := by
  decide

/-- Claim C6: `updateBuildings` never reads its `deltaTime` argument, so
the tick result is identical for any two `deltaTime` values on every game
state and catalog. -/
theorem Hex.updateBuildings_ignores_deltaTime (types : List Hex.BuildingType)
    (s : Hex.GameState) (d1 d2 : ℚ) :
    Hex.updateBuildings types s d1 = Hex.updateBuildings types s d2 :=
  rfl

/-- Claim C8: terrain classification is deterministic — any two terrain
states built by the calibration pipeline from the same configuration (for
example, before and after a process restart) classify every coordinate
identically. -/
theorem Hex.generateTerrain_deterministic {α : Type} (T : Hex.TerrainTable α)
    (cfg : Hex.TerrainConfig) (s1 s2 : Hex.TerrainState) (col row : ℤ)
    (h1 : s1 = Hex.initTerrainState cfg) (h2 : s2 = Hex.initTerrainState cfg) :
    Hex.generateTerrain T s1 col row = Hex.generateTerrain T s2 col row := by
  subst h1
  subst h2
  rfl

/-- Witness for C8 at the default configuration and coordinate (3, 5). -/
theorem Hex.generateTerrain_deterministic_witness :
    Hex.initTerrainState Hex.defaultConfig = Hex.initTerrainState Hex.defaultConfig
    ∧ Hex.generateTerrain Hex.TERRAIN (Hex.initTerrainState Hex.defaultConfig) 3 5 =
        Hex.generateTerrain Hex.TERRAIN (Hex.initTerrainState Hex.defaultConfig) 3 5 :=
  ⟨rfl, Hex.generateTerrain_deterministic Hex.TERRAIN Hex.defaultConfig _ _ 3 5 rfl rfl⟩

/-- Claim C10: the classifier is total — for every terrain state
(calibrated or not, thresholds possibly `undefined`) and every coordinate
it returns exactly one of the five TERRAIN kinds, and whenever none of the
four strict less-than comparisons succeeds it returns MOUNTAIN. -/
theorem Hex.generateTerrain_total {α : Type} (T : Hex.TerrainTable α)
    (st : Hex.TerrainState) (col row : ℤ) :
    (Hex.generateTerrain T st col row = T.WATER ∨
     Hex.generateTerrain T st col row = T.SAND ∨
     Hex.generateTerrain T st col row = T.GRASS ∨
     Hex.generateTerrain T st col row = T.FOREST ∨
     Hex.generateTerrain T st col row = T.MOUNTAIN)
    ∧ (Hex.jsLtOpt (Hex.noiseAt st col row) st.thresholds.sandThreshold = false →
       Hex.jsLtOpt (Hex.noiseAt st col row) st.thresholds.grassThreshold = false →
       Hex.jsLtOpt (Hex.noiseAt st col row) st.thresholds.forestThreshold = false →
       Hex.jsLtOpt (Hex.noiseAt st col row) st.thresholds.mountainThreshold = false →
       Hex.generateTerrain T st col row = T.MOUNTAIN) := by
  constructor
  · simp only [Hex.generateTerrain]
    split
    · exact Or.inl rfl
    · split
      · exact Or.inr (Or.inl rfl)
      · split
        · exact Or.inr (Or.inr (Or.inl rfl))
        · split
          · exact Or.inr (Or.inr (Or.inr (Or.inl rfl)))
          · exact Or.inr (Or.inr (Or.inr (Or.inr rfl)))
  · intro h1 h2 h3 h4
    simp [Hex.generateTerrain, h1, h2, h3, h4]

/-- Witness for C10 on a state whose four thresholds are all `undefined`:
every comparison fails and the classifier returns MOUNTAIN. -/
theorem Hex.generateTerrain_total_witness :
    Hex.jsLtOpt (Hex.noiseAt Hex.uncalibratedState 0 0)
        Hex.uncalibratedState.thresholds.sandThreshold = false
    ∧ Hex.jsLtOpt (Hex.noiseAt Hex.uncalibratedState 0 0)
        Hex.uncalibratedState.thresholds.grassThreshold = false
    ∧ Hex.jsLtOpt (Hex.noiseAt Hex.uncalibratedState 0 0)
        Hex.uncalibratedState.thresholds.forestThreshold = false
    ∧ Hex.jsLtOpt (Hex.noiseAt Hex.uncalibratedState 0 0)
        Hex.uncalibratedState.thresholds.mountainThreshold = false
    ∧ Hex.generateTerrain Hex.TERRAIN Hex.uncalibratedState 0 0 = Hex.TERRAIN.MOUNTAIN :=
  ⟨rfl, rfl, rfl, rfl,
    (Hex.generateTerrain_total Hex.TERRAIN Hex.uncalibratedState 0 0).2 rfl rfl rfl rfl⟩


theorem Hex.processBuilding_inert {types : List Hex.BuildingType} {b : Hex.Building}
    (h : Hex.inertFor types b) : Hex.processBuilding types b = (b, none) := by
  rcases h with h | ⟨t, ht, hs⟩
  · simp [Hex.processBuilding, h]
  · simp [Hex.processBuilding, ht, hs]

theorem Hex.runBuildings_lookup_inert {types : List Hex.BuildingType} {k : String}
    {b : Hex.Building} (hin : Hex.inertFor types b) :
    ∀ {l : List (String × Hex.Building)}, l.lookup k = some b →
      (Hex.runBuildings types l).1.lookup k = some b := by
  intro l
  induction l with
  | nil => intro hb; simp [List.lookup] at hb
  | cons kb rest ih =>
    obtain ⟨k', b'⟩ := kb
    intro hb
    by_cases hk : k == k'
    · have hb' : b' = b := by
        have h2 : some b' = some b := by simpa [List.lookup, hk] using hb
        exact Option.some.inj h2
      subst hb'
      rcases hrb : Hex.runBuildings types rest with ⟨rest', e'⟩
      simp only [Hex.runBuildings, Hex.processBuilding_inert hin, hrb]
      simp [List.lookup, hk]
    · have hb' : rest.lookup k = some b := by simpa [List.lookup, hk] using hb
      rcases hpb : Hex.processBuilding types b' with ⟨b'', e⟩
      cases e with
      | none =>
        have h3 := ih hb'
        rcases hrb : Hex.runBuildings types rest with ⟨rest', e'⟩
        rw [hrb] at h3
        simp only [Hex.runBuildings, hpb, hrb]
        simpa [List.lookup, hk] using h3
      | some err =>
        simp only [Hex.runBuildings, hpb]
        simpa [List.lookup, hk] using hb'

theorem Hex.updateBuildings_lookup_inert {types : List Hex.BuildingType} {k : String}
    {b : Hex.Building} (hin : Hex.inertFor types b) {s : Hex.GameState}
    (hb : s.placed_buildings.lookup k = some b) (d : ℚ) :
    (Hex.updateBuildings types s d).1.placed_buildings.lookup k = some b := by
  rcases hrb : Hex.runBuildings types s.placed_buildings with ⟨bs, e⟩
  have h2 := Hex.runBuildings_lookup_inert hin hb
  rw [hrb] at h2
  simpa [Hex.updateBuildings, hrb] using h2

/-- Claim C7: a building whose typeId has no catalog entry, or whose type
has `productionSpeed` 0, is skipped before any initialisation — its
processing yields the building unchanged with no error (so it never halts
the pass), and after any number of ticks its stored instance (inventory and
progress included) is exactly the original one. -/
theorem Hex.inert_building_unchanged (types : List Hex.BuildingType) (d : ℚ)
    (s : Hex.GameState) (k : String) (b : Hex.Building) (n : ℕ)
    (hb : s.placed_buildings.lookup k = some b) (hin : Hex.inertFor types b) :
    Hex.processBuilding types b = (b, none) ∧
      (Hex.tickN types d n s).placed_buildings.lookup k = some b := by
  refine ⟨Hex.processBuilding_inert hin, ?_⟩
  induction n generalizing s with
  | zero => simpa [Hex.tickN] using hb
  | succ m ih =>
    simpa [Hex.tickN] using ih _ (Hex.updateBuildings_lookup_inert hin hb d)

/-- Witness for C7: a hub (production speed 0) placed before a farm
survives three ticks untouched and never halts the pass. -/
theorem Hex.inert_building_unchanged_witness :
    Hex.hubFarmState.placed_buildings.lookup "0,0" = some Hex.hubBuilding
    ∧ Hex.inertFor Hex.BUILDING_TYPES Hex.hubBuilding
    ∧ Hex.processBuilding Hex.BUILDING_TYPES Hex.hubBuilding = (Hex.hubBuilding, none)
    ∧ (Hex.tickN Hex.BUILDING_TYPES Hex.d0 3 Hex.hubFarmState).placed_buildings.lookup "0,0"
        = some Hex.hubBuilding := by
  have hin : Hex.inertFor Hex.BUILDING_TYPES Hex.hubBuilding := Or.inr ⟨_, rfl, rfl⟩
  have hb : Hex.hubFarmState.placed_buildings.lookup "0,0" = some Hex.hubBuilding := by decide
  have h := Hex.inert_building_unchanged Hex.BUILDING_TYPES Hex.d0 Hex.hubFarmState
    "0,0" Hex.hubBuilding 3 hb hin
  exact ⟨hb, hin, h.1, h.2⟩

theorem Hex.notNeg_setKey {k : String} {v : Hex.JSNum} (hv : v.notNeg = true) :
    ∀ {m : Hex.ResMap}, Hex.resMapNonneg m = true →
      Hex.resMapNonneg (Hex.setKey m k v) = true := by
  intro m
  induction m with
  | nil => intro _; simp [Hex.resMapNonneg, Hex.setKey, hv]
  | cons kv rest ih =>
    obtain ⟨k', v'⟩ := kv
    intro hm
    rw [Hex.resMapNonneg, List.all_cons] at hm
    obtain ⟨hv', hrest⟩ := Bool.and_eq_true_iff.mp hm
    by_cases hk : k' = k
    · simp [Hex.resMapNonneg, Hex.setKey, hk, hv, hrest]
    · have := ih hrest
      simp only [Hex.resMapNonneg] at this
      simp [Hex.resMapNonneg, Hex.setKey, hk, hv', this]

theorem Hex.jsFalsyToZero_nonneg {k : String} :
    ∀ {m : Hex.ResMap}, Hex.resMapNonneg m = true →
      0 ≤ Hex.jsFalsyToZero (m.lookup k) := by
  intro m
  induction m with
  | nil => intro _; simp [Hex.jsFalsyToZero, List.lookup]
  | cons kv rest ih =>
    obtain ⟨k', v'⟩ := kv
    intro hm
    rw [Hex.resMapNonneg, List.all_cons] at hm
    obtain ⟨hv', hrest⟩ := Bool.and_eq_true_iff.mp hm
    by_cases hk : k == k'
    · cases v' with
      | nan => simp [List.lookup, hk, Hex.jsFalsyToZero]
      | num q =>
        simp only [Hex.JSNum.notNeg, decide_eq_true_eq] at hv'
        simpa [List.lookup, hk, Hex.jsFalsyToZero] using hv'
    · simpa [List.lookup, hk] using ih hrest

theorem Hex.consumeOne_nonneg {r : Hex.Requirement} {inp : Hex.ResMap}
    (h : Hex.resMapNonneg inp = true) :
    Hex.resMapNonneg (Hex.consumeOne inp r) = true := by
  rw [Hex.consumeOne]
  rcases hl : inp.lookup r.type with _ | v
  · exact Hex.notNeg_setKey (by simp [Hex.JSNum.notNeg]) h
  · cases v with
    | nan => exact Hex.notNeg_setKey (by simp [Hex.JSNum.notNeg]) h
    | num q =>
      by_cases hq : q - r.amount < 0
      · refine Hex.notNeg_setKey ?_ h
        simp [hq, Hex.JSNum.notNeg]
      · refine Hex.notNeg_setKey ?_ h
        simp only [hq, if_false, Hex.JSNum.notNeg, decide_eq_true_eq]
        linarith [not_lt.mp hq]

theorem Hex.foldl_consumeOne_nonneg :
    ∀ (rs : List Hex.Requirement) {inp : Hex.ResMap},
      Hex.resMapNonneg inp = true →
      Hex.resMapNonneg (rs.foldl Hex.consumeOne inp) = true := by
  intro rs
  induction rs with
  | nil => intro _ h; simpa using h
  | cons r rest ih =>
    intro inp h
    simpa [List.foldl_cons] using ih (Hex.consumeOne_nonneg h)

theorem Hex.completeProductionCycle_nonneg {inv : Hex.Inventory} {bt : Hex.BuildingType}
    (hinv : Hex.invNonneg inv = true)
    (hp : ∀ p, bt.produces = some p → 0 ≤ p.amount) :
    Hex.invNonneg (Hex.completeProductionCycle inv bt).1 = true := by
  rw [Hex.invNonneg, Bool.and_eq_true_iff, Bool.and_eq_true_iff] at hinv
  obtain ⟨⟨hflat, hinp⟩, hout⟩ := hinv
  rw [Hex.completeProductionCycle]
  rcases hc : bt.consumes with _ | ⟨r, rs⟩
  · rcases hpr : bt.produces with _ | p
    · rw [Hex.invNonneg]
      simp [hflat, hinp, hout]
    · rcases ho : inv.outputs with _ | out
      · rw [Hex.invNonneg]
        simp [hflat, hinp, ho]
      · rw [ho] at hout
        have hbase := Hex.jsFalsyToZero_nonneg (k := p.type) hout
        have hamt := hp p hpr
        have hsk : Hex.resMapNonneg
            (Hex.setKey out p.type (.num (Hex.jsFalsyToZero (out.lookup p.type) + p.amount))) = true := by
          refine Hex.notNeg_setKey ?_ hout
          simp only [Hex.JSNum.notNeg, decide_eq_true_eq]
          linarith
        rw [Hex.invNonneg]
        simp [hflat, hinp, hsk]
  · rcases hi : inv.inputs with _ | inp
    · rw [Hex.invNonneg]
      simp [hflat, hout, hi]
    · rw [hi] at hinp
      have hinp' := Hex.foldl_consumeOne_nonneg bt.consumes hinp
      rw [hc, List.foldl_cons] at hinp'
      rcases hpr : bt.produces with _ | p
      · rw [Hex.invNonneg]
        simp [hflat, hout, hc, hinp']
      · rcases ho : inv.outputs with _ | out
        · rw [Hex.invNonneg]
          simp [hflat, ho, hc, hinp']
        · rw [ho] at hout
          have hbase := Hex.jsFalsyToZero_nonneg (k := p.type) hout
          have hamt := hp p hpr
          have hsk : Hex.resMapNonneg
              (Hex.setKey out p.type (.num (Hex.jsFalsyToZero (out.lookup p.type) + p.amount))) = true := by
            refine Hex.notNeg_setKey ?_ hout
            simp only [Hex.JSNum.notNeg, decide_eq_true_eq]
            linarith
          rw [Hex.invNonneg]
          simp [hflat, hc, hinp', hsk]

theorem Hex.processBuilding_nonneg {types : List Hex.BuildingType} {b : Hex.Building}
    (hp : Hex.producesNonneg types = true) (hb : Hex.buildingNonneg b = true) :
    Hex.buildingNonneg (Hex.processBuilding types b).1 = true := by
  rw [Hex.processBuilding]
  rcases hg : Hex.getBuildingType types b.type with _ | bt
  · exact hb
  · dsimp only
    have hg' : types.find? (fun t => t.id == b.type) = some bt := hg
    have hmem : bt ∈ types := List.mem_of_find?_eq_some hg'
    have hbt : ∀ p, bt.produces = some p → 0 ≤ p.amount := by
      intro p hpp
      have h4 := (List.all_eq_true.mp hp) bt hmem
      rw [hpp] at h4
      simpa using h4
    by_cases hs : bt.productionSpeed = 0
    · rw [if_pos hs]
      exact hb
    · rw [if_neg hs]
      have hinv : Hex.invNonneg (match b.inventory with
          | none => ({ flat := [], inputs := none, outputs := none } : Hex.Inventory)
          | some i => i) = true := by
        rcases hbi : b.inventory with _ | inv
        · rfl
        · rw [Hex.buildingNonneg, hbi] at hb
          exact hb
      by_cases hcp : Hex.checkProductionRequirements (match b.inventory with
          | none => ({ flat := [], inputs := none, outputs := none } : Hex.Inventory)
          | some i => i) bt = true
      · rw [if_pos hcp]
        by_cases hone : (1 : ℚ) ≤ (match b.productionProgress with
            | none => 0
            | some p => p) + bt.productionSpeed
        · rw [if_pos hone]
          rcases hcc : Hex.completeProductionCycle (match b.inventory with
              | none => ({ flat := [], inputs := none, outputs := none } : Hex.Inventory)
              | some i => i) bt with ⟨inv', e⟩
          have hinv' : Hex.invNonneg inv' = true := by
            have h5 := Hex.completeProductionCycle_nonneg hinv hbt
            rwa [hcc] at h5
          cases e <;> simp [Hex.buildingNonneg, hinv']
        · rw [if_neg hone]
          simpa [Hex.buildingNonneg] using hinv
      · rw [if_neg hcp]
        simpa [Hex.buildingNonneg] using hinv

theorem Hex.runBuildings_nonneg {types : List Hex.BuildingType}
    (hp : Hex.producesNonneg types = true) :
    ∀ {l : List (String × Hex.Building)},
      l.all (fun kb => Hex.buildingNonneg kb.2) = true →
      ((Hex.runBuildings types l).1).all (fun kb => Hex.buildingNonneg kb.2) = true := by
  intro l
  induction l with
  | nil => intro _; simp [Hex.runBuildings]
  | cons kb rest ih =>
    obtain ⟨k, b⟩ := kb
    intro hl
    rw [List.all_cons] at hl
    obtain ⟨hb, hrest⟩ := Bool.and_eq_true_iff.mp hl
    have hb' := Hex.processBuilding_nonneg hp hb
    rcases hpb : Hex.processBuilding types b with ⟨b', e⟩
    rw [hpb] at hb'
    cases e with
    | none =>
      rcases hrb : Hex.runBuildings types rest with ⟨rest', e'⟩
      have hrest' := ih hrest
      rw [hrb] at hrest'
      simp only [Hex.runBuildings, hpb, hrb]
      simp [hb', hrest']
    | some err =>
      simp only [Hex.runBuildings, hpb]
      simp [hb', hrest]

/-- Claim C5: no tick leaves any stored inventory quantity negative — the
consumption step clamps at 0 whenever the request exceeds the stored
amount, production adds a non-negative catalog amount, and no other tick
path changes quantities; this holds on every state whose quantities start
non-negative, for any catalog whose output amounts are non-negative (as
the shipped catalog's are), including ticks that abort with an error. -/
theorem Hex.tick_preserves_nonneg_inventory (types : List Hex.BuildingType)
    (s : Hex.GameState) (d : ℚ) (hp : Hex.producesNonneg types = true)
    (hs : Hex.stateNonneg s = true) :
    Hex.stateNonneg (Hex.updateBuildings types s d).1 = true := by
  rcases hrb : Hex.runBuildings types s.placed_buildings with ⟨bs, e⟩
  have h2 := Hex.runBuildings_nonneg hp (l := s.placed_buildings) hs
  rw [hrb] at h2
  simpa [Hex.stateNonneg, Hex.updateBuildings, hrb] using h2

/-- Witness for C5: a SAWMILL whose present `inputs` bucket holds 1 wood
while the cycle consumes 2 completes a cycle; the stored quantity is
clamped to 0, not driven to -1, and the whole state stays non-negative. -/
theorem Hex.tick_preserves_nonneg_inventory_witness :
    Hex.producesNonneg Hex.BUILDING_TYPES = true
    ∧ Hex.stateNonneg Hex.sawmillClampState = true
    ∧ Hex.stateNonneg (Hex.updateBuildings Hex.BUILDING_TYPES Hex.sawmillClampState Hex.d0).1 = true
    ∧ Hex.updateBuildings Hex.BUILDING_TYPES Hex.sawmillClampState Hex.d0 =
        (⟨[("0,0", ⟨0, 0, "sawmill",
            some ⟨[("wood", .num 5)], some [("wood", .num 0)], some [("planks", .num 1)]⟩,
            some 0⟩)]⟩, none) :=
  ⟨by decide, by decide,
    Hex.tick_preserves_nonneg_inventory Hex.BUILDING_TYPES Hex.sawmillClampState Hex.d0
      (by decide) (by decide), by decide⟩

theorem Hex.sampleGo_length (perm : List ℕ) (scale : ℚ) (octaves : ℕ) :
    ∀ (n state : ℕ), (Hex.sampleGo perm scale octaves state n).length = n := by
  intro n
  induction n with
  | zero => intro state; rfl
  | succ m ih => intro state; simp [Hex.sampleGo, ih]

theorem Hex.sampleNoiseDistribution_length (perm : List ℕ) (cfg : Hex.TerrainConfig) :
    (Hex.sampleNoiseDistribution perm cfg).length = 10000 := by
  simp [Hex.sampleNoiseDistribution, Hex.sampleGo_length]

theorem Hex.sampleNoiseDistribution_sorted (perm : List ℕ) (cfg : Hex.TerrainConfig) :
    (Hex.sampleNoiseDistribution perm cfg).Sorted (· ≤ ·) := by
  rw [Hex.sampleNoiseDistribution]
  have h := @List.sorted_mergeSort ℚ (fun a b => decide (a ≤ b))
    (by
      intro a b c hab hbc
      simp only [decide_eq_true_eq] at *
      exact le_trans hab hbc)
    (by
      intro a b
      simp only [Bool.or_eq_true, decide_eq_true_eq]
      exact le_total a b)
    (Hex.sampleGo perm cfg.scale cfg.octaves cfg.seed 10000)
  exact h.imp (by intro a b hab; simpa using hab)

theorem Hex.jsIndex_eq_get (l : List ℚ) (i : ℤ) (h0 : 0 ≤ i) (hl : i.toNat < l.length) :
    Hex.jsIndex l i = some (l.get ⟨i.toNat, hl⟩) := by
  rw [Hex.jsIndex, dif_pos (⟨h0, hl⟩ : 0 ≤ i ∧ i.toNat < l.length)]

theorem Hex.sorted_get_le (l : List ℚ) (hs : l.Sorted (· ≤ ·)) (i j : Fin l.length)
    (hij : (i : ℕ) ≤ (j : ℕ)) : l.get i ≤ l.get j := by
  rcases lt_or_eq_of_le hij with h | h
  · exact List.Sorted.rel_get_of_lt hs h
  · rw [Fin.ext h]

/-- Claim C9 (amended): for any valid percentage configuration
(non-negative percentages summing to 100, with a positive mountain share so
every percentile index is in range, and at least one octave), the four
calibrated thresholds are defined and non-decreasing:
`sandThreshold ≤ grassThreshold ≤ forestThreshold ≤ mountainThreshold`.
Strict ascent fails in general: coinciding cut points (for example a zero
percentage) or repeated sample values yield equal thresholds. -/
theorem Hex.calibrated_thresholds_ascending (perm : List ℕ) (cfg : Hex.TerrainConfig)
    (hw : 0 ≤ cfg.waterPercent) (hs : 0 ≤ cfg.sandPercent) (hg : 0 ≤ cfg.grassPercent)
    (hf : 0 ≤ cfg.forestPercent) (hm : 0 < cfg.mountainPercent) (_hoct : 1 ≤ cfg.octaves)
    (hsum : cfg.waterPercent + cfg.sandPercent + cfg.grassPercent + cfg.forestPercent +
        cfg.mountainPercent = 100) :
    ∃ a b c d, Hex.calculateThresholdsFromPercentages perm cfg =
        ⟨some a, some b, some c, some d⟩ ∧ a ≤ b ∧ b ≤ c ∧ c ≤ d := by
  have hcalc : Hex.calculateThresholdsFromPercentages perm cfg =
      { sandThreshold := Hex.jsIndex (Hex.sampleNoiseDistribution perm cfg)
          ⌊(cfg.waterPercent / 100) * ((Hex.sampleNoiseDistribution perm cfg).length : ℚ)⌋
        grassThreshold := Hex.jsIndex (Hex.sampleNoiseDistribution perm cfg)
          ⌊(cfg.waterPercent / 100 + cfg.sandPercent / 100) *
            ((Hex.sampleNoiseDistribution perm cfg).length : ℚ)⌋
        forestThreshold := Hex.jsIndex (Hex.sampleNoiseDistribution perm cfg)
          ⌊(cfg.waterPercent / 100 + cfg.sandPercent / 100 + cfg.grassPercent / 100) *
            ((Hex.sampleNoiseDistribution perm cfg).length : ℚ)⌋
        mountainThreshold := Hex.jsIndex (Hex.sampleNoiseDistribution perm cfg)
          ⌊(cfg.waterPercent / 100 + cfg.sandPercent / 100 + cfg.grassPercent / 100 +
              cfg.forestPercent / 100) *
            ((Hex.sampleNoiseDistribution perm cfg).length : ℚ)⌋ } := rfl
  have hlen : (Hex.sampleNoiseDistribution perm cfg).length = 10000 :=
    Hex.sampleNoiseDistribution_length perm cfg
  have hsort : (Hex.sampleNoiseDistribution perm cfg).Sorted (· ≤ ·) :=
    Hex.sampleNoiseDistribution_sorted perm cfg
  have hql : (((Hex.sampleNoiseDistribution perm cfg).length : ℕ) : ℚ) = 10000 := by
    rw [hlen]; norm_num
  have h1nn : (0 : ℚ) ≤ cfg.waterPercent / 100 := by positivity
  have h12 : cfg.waterPercent / 100 ≤ cfg.waterPercent / 100 + cfg.sandPercent / 100 := by
    have : (0 : ℚ) ≤ cfg.sandPercent / 100 := by positivity
    linarith
  have h23 : cfg.waterPercent / 100 + cfg.sandPercent / 100 ≤
      cfg.waterPercent / 100 + cfg.sandPercent / 100 + cfg.grassPercent / 100 := by
    have : (0 : ℚ) ≤ cfg.grassPercent / 100 := by positivity
    linarith
  have h34 : cfg.waterPercent / 100 + cfg.sandPercent / 100 + cfg.grassPercent / 100 ≤
      cfg.waterPercent / 100 + cfg.sandPercent / 100 + cfg.grassPercent / 100 +
        cfg.forestPercent / 100 := by
    have : (0 : ℚ) ≤ cfg.forestPercent / 100 := by positivity
    linarith
  have h4lt : cfg.waterPercent / 100 + cfg.sandPercent / 100 + cfg.grassPercent / 100 +
      cfg.forestPercent / 100 < 1 := by
    have hsum' : cfg.waterPercent + cfg.sandPercent + cfg.grassPercent + cfg.forestPercent =
        100 - cfg.mountainPercent := by linarith
    have hlt : cfg.waterPercent + cfg.sandPercent + cfg.grassPercent + cfg.forestPercent <
        100 := by linarith
    linarith
  have hXpos : (0 : ℚ) ≤ (((Hex.sampleNoiseDistribution perm cfg).length : ℕ) : ℚ) := by
    rw [hql]; norm_num
  have hi1nn : 0 ≤ ⌊(cfg.waterPercent / 100) *
      ((Hex.sampleNoiseDistribution perm cfg).length : ℚ)⌋ :=
    Int.floor_nonneg.mpr (mul_nonneg h1nn hXpos)
  have hi12 : ⌊(cfg.waterPercent / 100) *
      ((Hex.sampleNoiseDistribution perm cfg).length : ℚ)⌋ ≤
      ⌊(cfg.waterPercent / 100 + cfg.sandPercent / 100) *
        ((Hex.sampleNoiseDistribution perm cfg).length : ℚ)⌋ :=
    Int.floor_le_floor (mul_le_mul_of_nonneg_right h12 hXpos)
  have hi23 : ⌊(cfg.waterPercent / 100 + cfg.sandPercent / 100) *
      ((Hex.sampleNoiseDistribution perm cfg).length : ℚ)⌋ ≤
      ⌊(cfg.waterPercent / 100 + cfg.sandPercent / 100 + cfg.grassPercent / 100) *
        ((Hex.sampleNoiseDistribution perm cfg).length : ℚ)⌋ :=
    Int.floor_le_floor (mul_le_mul_of_nonneg_right h23 hXpos)
  have hi34 : ⌊(cfg.waterPercent / 100 + cfg.sandPercent / 100 + cfg.grassPercent / 100) *
      ((Hex.sampleNoiseDistribution perm cfg).length : ℚ)⌋ ≤
      ⌊(cfg.waterPercent / 100 + cfg.sandPercent / 100 + cfg.grassPercent / 100 +
          cfg.forestPercent / 100) *
        ((Hex.sampleNoiseDistribution perm cfg).length : ℚ)⌋ :=
    Int.floor_le_floor (mul_le_mul_of_nonneg_right h34 hXpos)
  have hi4lt : ⌊(cfg.waterPercent / 100 + cfg.sandPercent / 100 + cfg.grassPercent / 100 +
      cfg.forestPercent / 100) *
      ((Hex.sampleNoiseDistribution perm cfg).length : ℚ)⌋ < 10000 := by
    rw [Int.floor_lt]
    rw [hql]
    push_cast
    nlinarith [h4lt]
  have hl4 : (⌊(cfg.waterPercent / 100 + cfg.sandPercent / 100 + cfg.grassPercent / 100 +
      cfg.forestPercent / 100) *
      ((Hex.sampleNoiseDistribution perm cfg).length : ℚ)⌋).toNat <
      (Hex.sampleNoiseDistribution perm cfg).length := by omega
  have hl3 : (⌊(cfg.waterPercent / 100 + cfg.sandPercent / 100 + cfg.grassPercent / 100) *
      ((Hex.sampleNoiseDistribution perm cfg).length : ℚ)⌋).toNat <
      (Hex.sampleNoiseDistribution perm cfg).length := by omega
  have hl2 : (⌊(cfg.waterPercent / 100 + cfg.sandPercent / 100) *
      ((Hex.sampleNoiseDistribution perm cfg).length : ℚ)⌋).toNat <
      (Hex.sampleNoiseDistribution perm cfg).length := by omega
  have hl1 : (⌊(cfg.waterPercent / 100) *
      ((Hex.sampleNoiseDistribution perm cfg).length : ℚ)⌋).toNat <
      (Hex.sampleNoiseDistribution perm cfg).length := by omega
  refine ⟨(Hex.sampleNoiseDistribution perm cfg).get ⟨_, hl1⟩,
    (Hex.sampleNoiseDistribution perm cfg).get ⟨_, hl2⟩,
    (Hex.sampleNoiseDistribution perm cfg).get ⟨_, hl3⟩,
    (Hex.sampleNoiseDistribution perm cfg).get ⟨_, hl4⟩, ?_, ?_, ?_, ?_⟩
  · rw [hcalc, Hex.jsIndex_eq_get _ _ hi1nn hl1, Hex.jsIndex_eq_get _ _ (le_trans hi1nn hi12) hl2,
      Hex.jsIndex_eq_get _ _ (le_trans hi1nn (le_trans hi12 hi23)) hl3,
      Hex.jsIndex_eq_get _ _ (le_trans hi1nn (le_trans hi12 (le_trans hi23 hi34))) hl4]
  · exact Hex.sorted_get_le _ hsort _ _ (Int.toNat_le_toNat hi12)
  · exact Hex.sorted_get_le _ hsort _ _ (Int.toNat_le_toNat hi23)
  · exact Hex.sorted_get_le _ hsort _ _ (Int.toNat_le_toNat hi34)

/-- Counterexample for C9 as stated: `cfg9` is a valid percentage
configuration (non-negative percentages summing to 100), yet its grass and
forest thresholds are the *same* sample (grassPercent is 0, so the two
cumulative cut points coincide), so the strictly-ascending chain
`grassThreshold < forestThreshold` fails. -/
theorem Hex.thresholds_equal_when_grass_zero :
    (0 ≤ Hex.cfg9.waterPercent ∧ 0 ≤ Hex.cfg9.sandPercent ∧ 0 ≤ Hex.cfg9.grassPercent ∧
      0 ≤ Hex.cfg9.forestPercent ∧ 0 ≤ Hex.cfg9.mountainPercent ∧
      Hex.cfg9.waterPercent + Hex.cfg9.sandPercent + Hex.cfg9.grassPercent +
        Hex.cfg9.forestPercent + Hex.cfg9.mountainPercent = 100)
    ∧ (Hex.initTerrainState Hex.cfg9).thresholds.grassThreshold =
        (Hex.initTerrainState Hex.cfg9).thresholds.forestThreshold := by
  constructor
  · exact ⟨by decide, by decide, by decide, by decide, by decide, by decide⟩
  · have h1 : (Hex.initTerrainState Hex.cfg9).thresholds =
        Hex.calculateThresholdsFromPercentages
          (Hex.generatePermutationTable Hex.cfg9.seed) Hex.cfg9 := rfl
    rw [h1]
    show Hex.jsIndex _ ⌊(Hex.cfg9.waterPercent / 100 + Hex.cfg9.sandPercent / 100) * _⌋ =
      Hex.jsIndex _ ⌊(Hex.cfg9.waterPercent / 100 + Hex.cfg9.sandPercent / 100 +
        Hex.cfg9.grassPercent / 100) * _⌋
    congr 2

/-- Witness for the amended C9 at the all-20 configuration. -/
theorem Hex.calibrated_thresholds_ascending_witness :
    (0 ≤ Hex.cfgW.waterPercent ∧ 0 ≤ Hex.cfgW.sandPercent ∧ 0 ≤ Hex.cfgW.grassPercent ∧
      0 ≤ Hex.cfgW.forestPercent ∧ 0 < Hex.cfgW.mountainPercent ∧ 1 ≤ Hex.cfgW.octaves ∧
      Hex.cfgW.waterPercent + Hex.cfgW.sandPercent + Hex.cfgW.grassPercent +
        Hex.cfgW.forestPercent + Hex.cfgW.mountainPercent = 100)
    ∧ (∃ a b c d, Hex.calculateThresholdsFromPercentages
          (Hex.generatePermutationTable Hex.cfgW.seed) Hex.cfgW =
            ⟨some a, some b, some c, some d⟩ ∧ a ≤ b ∧ b ≤ c ∧ c ≤ d) :=
  ⟨⟨by decide, by decide, by decide, by decide, by decide, by decide, by decide⟩,
    Hex.calibrated_thresholds_ascending (Hex.generatePermutationTable Hex.cfgW.seed) Hex.cfgW
      (by decide) (by decide) (by decide) (by decide) (by decide) (by decide) (by decide)⟩
